import Mathlib

/-!
Shallow embedding of `src/app/lib/transactions.ts` (Movement-Counter).

The file under verification is a straight-line asynchronous client: it builds
a fee-payer transaction, obtains a sender signature (custodial digest signer or
native wallet), POSTs the serialized pair to a sponsorship backend, waits for
on-chain confirmation, and reads the counter with a view call.

All external collaborators (the Aptos SDK builder, signers, `fetch`, the chain
client) are modelled as an explicit environment `Env` of oracle functions; a
rejected promise is `Except.error msg`.  Each flow is translated as a pure
function of the environment returning its result together with the ordered
trace of external effects it performed, so that claims about "exactly one
POST", "the wait is never invoked", etc. are statable.

Opaque SDK objects (the built transaction handle, a wallet authenticator) are
modelled as `Nat` handles; JS strings manipulated character-wise (the public
key hex) are modelled as `List Char`.  A JSON string field that may be absent
or empty is modelled as `String` with `""` standing for the falsy cases, which
matches every `!x` test the source performs on such fields.
-/

/-- The source union type `CounterAction`, `increment` or `decrement`. -/
inductive CounterAction
  | increment
  | decrement
deriving DecidableEq

/-- The request record passed to `aptos.transaction.build.simple`:
sender, `withFeePayer`, the target function, its type arguments (the custodial
flow passes `[]`, the native flow omits the field), the function arguments,
and `options.expireTimestamp` when supplied. -/
structure BuildRequest where
  sender : String
  withFeePayer : Bool
  functionName : String
  typeArguments : Option (List String)
  functionArguments : List Int
  expireTimestamp : Option Nat
deriving DecidableEq

/-- The parameter record of `SignRawHashFunction`:
`{ address, chainType: "aptos", hash }`. -/
structure SignParams where
  address : String
  chainType : String
  hash : String
deriving DecidableEq

/-- What `new AccountAuthenticatorEd25519(new Ed25519PublicKey pk, new Ed25519Signature sig)`
receives: the pair of character strings passed to the two constructors. -/
structure Ed25519Auth where
  publicKey : List Char
  signature : List Char
deriving DecidableEq

/-- The parsed JSON body of a `/api/sponsor-transaction` response together with
`response.ok`.  `transactionHash = ""` models a missing or otherwise falsy
hash field, the cases `!transactionHash` detects on a string. -/
structure SponsorResp where
  ok : Bool
  details : Option String
  transactionHash : String
deriving DecidableEq

/-- The executed-transaction record returned by `aptos.waitForTransaction`;
only its `success` flag is inspected by the source. -/
structure ChainExecuted where
  success : Bool
deriving DecidableEq

/-- Oracles for every external call the source makes.  Built transactions and
wallet authenticators are opaque `Nat` handles. -/
structure Env where
  build : BuildRequest → Except String Nat
  generateSigningMessage : Nat → List Nat
  signRawHash : SignParams → Except String String
  signTransaction : Nat → Except String Nat
  serializeTxn : Nat → String
  serializeAuth : Ed25519Auth → String
  serializeWalletAuth : Nat → String
  sponsorFetch : String → String → Except String SponsorResp
  waitForTransaction : String → Except String ChainExecuted
  accountAddressFrom : String → Except String String
  view : String → List String → Except String Nat

/-- One external effect performed by a flow, in order. -/
inductive Eff
  | buildE (req : BuildRequest)
  | signRawE (p : SignParams)
  | mkAuthE (a : Ed25519Auth)
  | walletSignE (txn : Nat)
  | sponsorE (serializedTransaction senderSignature : String)
  | waitE (hash : String)
deriving DecidableEq

/-- Translation of `getCounterFunction`:
`action === "increment" ? "add_counter" : "subtract_counter"`, interpolated as
`` `${CONTRACT_ADDRESS}::counter::${functionName}` ``.  `CONTRACT_ADDRESS` is a
build-time constant imported from `./aptos`, passed here explicitly. -/
def getCounterFunction (contractAddress : String) (action : CounterAction) : String :=
  let functionName := if action = CounterAction.increment then "add_counter" else "subtract_counter"
  contractAddress ++ ("::counter::" ++ functionName)

/-- The test `publicKeyHex.startsWith("0x")` on the character list. -/
def startsWith0x : List Char → Bool
  | c1 :: c2 :: _ => c1 == '0' && c2 == 'x'
  | _ => false

/-- The normalization `s.startsWith("0x") ? s.slice(2) : s`. -/
def strip0x (s : List Char) : List Char :=
  if startsWith0x s then s.drop 2 else s

/-- Lines 67-72 of the source: strip an optional `0x` prefix, then, if the
remaining hex string is 66 characters (33 bytes), drop the first byte. -/
def cleanPublicKey (publicKeyHex : List Char) : List Char :=
  let c := strip0x publicKeyHex
  if c.length = 66 then c.drop 2 else c

/-- A hexadecimal digit character. -/
def isHexChar (c : Char) : Bool :=
  c.isDigit || ('a' ≤ c && c ≤ 'f') || ('A' ≤ c && c ≤ 'F')

/-- Modelled from the spec: `toHex` lives in `src/app/lib/aptos.ts`, which is
not included in the sources; per the spec (§4.2 / claim sources) the signing
message is "hex-encoded with a `0x` prefix", so this encodes a byte list as
lowercase hex, two digits per byte, the `0x` being prepended by the caller as
in the source (`` `0x${toHex(message)}` ``). -/
def toHex (bytes : List Nat) : String :=
  String.mk (bytes.foldr (fun b acc => Nat.digitChar (b / 16 % 16) :: Nat.digitChar (b % 16) :: acc) [])

/-- JavaScript `a || b` on an optional string field: the fallback is taken when
the field is absent or its value is falsy (the empty string). -/
def jsOr (s : Option String) (fallback : String) : String :=
  match s with
  | some d => if d = "" then fallback else d
  | none => fallback

/-- The build request the custodial flow passes to `aptos.transaction.build.simple`
(lines 45-53): sender, `withFeePayer: true`, the mapped function,
`typeArguments: []`, `functionArguments: [amount]`, no options. -/
def custodialBuildRequest (contractAddress : String) (action : CounterAction)
    (amount : Int) (walletAddress : String) : BuildRequest :=
  { sender := walletAddress
    withFeePayer := true
    functionName := getCounterFunction contractAddress action
    typeArguments := some []
    functionArguments := [amount]
    expireTimestamp := none }

/-- The build request the native flow passes (lines 133-143): normalized
sender, `withFeePayer: true`, the mapped function, no type arguments field,
`functionArguments: [amount]`, and
`options.expireTimestamp = Math.floor(Date.now() / 1000) + 5 * 60`.
`now` is `Date.now()` in milliseconds. -/
def nativeBuildRequest (contractAddress : String) (now : Nat) (action : CounterAction)
    (amount : Int) (sender : String) : BuildRequest :=
  { sender := sender
    withFeePayer := true
    functionName := getCounterFunction contractAddress action
    typeArguments := none
    functionArguments := [amount]
    expireTimestamp := some (now / 1000 + 5 * 60) }

/-- The record sent to the custodial signer (lines 59-63):
`{ address: walletAddress, chainType: "aptos", hash: 0x${toHex(message)} }`. -/
def custodialSignParams (env : Env) (walletAddress : String) (rawTxn : Nat) : SignParams :=
  { address := walletAddress
    chainType := "aptos"
    hash := "0x" ++ toHex (env.generateSigningMessage rawTxn) }

/-- Translation of `submitCounterTransaction` (lines 36-120), with the result paired with the
trace of external effects.  The surrounding `try/catch` only logs and rethrows,
so errors propagate unchanged. -/
def submitCounterTransaction (env : Env) (contractAddress : String)
    (action : CounterAction) (amount : Int) (walletAddress : String)
    (publicKeyHex : List Char) : Except String String × List Eff :=
  let req := custodialBuildRequest contractAddress action amount walletAddress
  match env.build req with
  | .error e => (.error e, [.buildE req])
  | .ok rawTxn =>
    let p := custodialSignParams env walletAddress rawTxn
    match env.signRawHash p with
    | .error e => (.error e, [.buildE req, .signRawE p])
    | .ok rawSignature =>
      let auth : Ed25519Auth :=
        { publicKey := cleanPublicKey publicKeyHex
          signature := strip0x rawSignature.data }
      let serializedTransaction := env.serializeTxn rawTxn
      let serializedSignature := env.serializeAuth auth
      let tr := [Eff.buildE req, Eff.signRawE p, Eff.mkAuthE auth,
                 Eff.sponsorE serializedTransaction serializedSignature]
      match env.sponsorFetch serializedTransaction serializedSignature with
      | .error e => (.error e, tr)
      | .ok resp =>
        if resp.ok = false then
          (.error (jsOr resp.details "Failed to sponsor transaction"), tr)
        else
          match env.waitForTransaction resp.transactionHash with
          | .error e => (.error e, tr ++ [.waitE resp.transactionHash])
          | .ok executed =>
            if executed.success = false then
              (.error "Transaction failed", tr ++ [.waitE resp.transactionHash])
            else
              (.ok resp.transactionHash, tr ++ [.waitE resp.transactionHash])

/-- Translation of `buildSignAndSponsorTransaction` (lines 126-173). -/
def buildSignAndSponsorTransaction (env : Env) (contractAddress : String) (now : Nat)
    (action : CounterAction) (amount : Int) (walletAddress : String) :
    Except String String × List Eff :=
  match env.accountAddressFrom walletAddress with
  | .error e => (.error e, [])
  | .ok sender =>
    let req := nativeBuildRequest contractAddress now action amount sender
    match env.build req with
    | .error e => (.error e, [.buildE req])
    | .ok simpleTx =>
      match env.signTransaction simpleTx with
      | .error e => (.error e, [.buildE req, .walletSignE simpleTx])
      | .ok senderAuth =>
        let st := env.serializeTxn simpleTx
        let ss := env.serializeWalletAuth senderAuth
        let tr := [Eff.buildE req, Eff.walletSignE simpleTx, Eff.sponsorE st ss]
        match env.sponsorFetch st ss with
        | .error e => (.error e, tr)
        | .ok resp =>
          if resp.ok = false then
            (.error (jsOr resp.details "Failed to sponsor transaction"), tr)
          else
            (.ok resp.transactionHash, tr)

/-- Translation of `submitCounterTransactionNative` (lines 180-218); `!walletAddress` on a
string is the emptiness test; `!transactionHash` likewise. -/
def submitCounterTransactionNative (env : Env) (contractAddress : String) (now : Nat)
    (action : CounterAction) (amount : Int) (walletAddress : String) :
    Except String String × List Eff :=
  if walletAddress = "" then
    (.error "No wallet address provided", [])
  else
    let r := buildSignAndSponsorTransaction env contractAddress now action amount walletAddress
    match r.1 with
    | .error e => (.error e, r.2)
    | .ok transactionHash =>
      if transactionHash = "" then
        (.error "Unable to get transaction hash from backend", r.2)
      else
        match env.waitForTransaction transactionHash with
        | .error e => (.error e, r.2 ++ [.waitE transactionHash])
        | .ok executed =>
          if executed.success = false then
            (.error "Transaction failed on-chain", r.2 ++ [.waitE transactionHash])
          else
            (.ok transactionHash, r.2 ++ [.waitE transactionHash])

/-- Translation of `fetchCounterValue` (lines 223-238): a view call whose failure is caught
and turned into `null` (`none`); a success is `Number(result[0])`, the viewed
`u64`. -/
def fetchCounterValue (env : Env) (contractAddress : String) (address : String) :
    Option Int :=
  match env.view (contractAddress ++ "::counter::get_counter") [address] with
  | .ok v => some (Int.ofNat v)
  | .error _ => none

/-- Number of POSTs to `/api/sponsor-transaction` in a trace. -/
def countSponsor : List Eff → Nat
  | [] => 0
  | .sponsorE _ _ :: tl => countSponsor tl + 1
  | _ :: tl => countSponsor tl

/-- Number of `waitForTransaction` calls in a trace. -/
def countWait : List Eff → Nat
  | [] => 0
  | .waitE _ :: tl => countWait tl + 1
  | _ :: tl => countWait tl

/-- A fully successful concrete environment: every oracle answers, the
sponsorship backend accepts and returns hash `"0xdeadbeef"`, and the chain
confirms with `success = true`. -/
def okEnv : Env :=
  { build := fun _ => .ok 0
    generateSigningMessage := fun _ => [1, 255]
    signRawHash := fun _ => .ok "0xs"
    signTransaction := fun _ => .ok 7
    serializeTxn := fun _ => "T"
    serializeAuth := fun _ => "A"
    serializeWalletAuth := fun _ => "W"
    sponsorFetch := fun _ _ => .ok { ok := true, details := none, transactionHash := "0xdeadbeef" }
    waitForTransaction := fun _ => .ok { success := true }
    accountAddressFrom := fun s => .ok s
    view := fun _ _ => .ok 5 }

/-- As `okEnv`, but the sponsorship backend answers non-2xx with a body whose
`details` field is present and equal to the empty string. -/
def emptyDetailsEnv : Env :=
  { okEnv with sponsorFetch := fun _ _ =>
      Except.ok ⟨false, some "", ""⟩ }

/-- As `okEnv`, but the sponsorship backend answers non-2xx with
`details = "insufficient balance"`. -/
def detailsEnv : Env :=
  { okEnv with sponsorFetch := fun _ _ =>
      Except.ok ⟨false, some "insufficient balance", ""⟩ }

/-- As `okEnv`, but the view call rejects. -/
def viewErrEnv : Env :=
  { okEnv with view := fun _ _ => .error "network down" }

/-- As `okEnv`, but the sponsorship backend answers 2xx with a missing
(falsy) `transactionHash`. -/
def noHashEnv : Env :=
  { okEnv with sponsorFetch := fun _ _ =>
      Except.ok ⟨true, none, ""⟩ }

/-- A character of the hex payload of a well-formed hex string is a hex digit,
never `'x'`; this is what makes a second prefix strip a no-op. -/
lemma startsWith0x_false_of_hexChars (t : List Char)
    (hhex : ∀ c ∈ t, isHexChar c = true) : startsWith0x t = false := by
  cases t with
  | nil => rfl
  | cons c1 tl =>
    cases tl with
    | nil => rfl
    | cons c2 tl2 =>
      have h2 := hhex c2 (by simp)
      by_cases hx : c2 = 'x'
      · subst hx
        exact absurd h2 (by decide)
      · simp [startsWith0x, hx]

/-- In every branch of the custodial flow at most one sponsorship POST occurs. -/
lemma countSponsor_custodial_le (env : Env) (ca : String) (action : CounterAction)
    (amount : Int) (wa : String) (pk : List Char) :
    countSponsor (submitCounterTransaction env ca action amount wa pk).2 ≤ 1 := by
  cases hb : env.build (custodialBuildRequest ca action amount wa) with
  | error e => simp [submitCounterTransaction, hb, countSponsor]
  | ok rawTxn =>
    cases hs : env.signRawHash (custodialSignParams env wa rawTxn) with
    | error e => simp [submitCounterTransaction, hb, hs, countSponsor]
    | ok sig =>
      cases hf : env.sponsorFetch (env.serializeTxn rawTxn)
          (env.serializeAuth { publicKey := cleanPublicKey pk, signature := strip0x sig.data }) with
      | error e => simp [submitCounterTransaction, hb, hs, hf, countSponsor]
      | ok resp =>
        cases hok : resp.ok with
        | false => simp [submitCounterTransaction, hb, hs, hf, hok, countSponsor]
        | true =>
          cases hw : env.waitForTransaction resp.transactionHash with
          | error e => simp [submitCounterTransaction, hb, hs, hf, hok, hw, countSponsor]
          | ok executed =>
            cases hsc : executed.success with
            | false => simp [submitCounterTransaction, hb, hs, hf, hok, hw, hsc, countSponsor]
            | true => simp [submitCounterTransaction, hb, hs, hf, hok, hw, hsc, countSponsor]

/-- In every branch of the native flow at most one sponsorship POST occurs. -/
lemma countSponsor_native_le (env : Env) (ca : String) (now : Nat)
    (action : CounterAction) (amount : Int) (wa : String) :
    countSponsor (submitCounterTransactionNative env ca now action amount wa).2 ≤ 1 := by
  by_cases hwa : wa = ""
  · simp [submitCounterTransactionNative, hwa, countSponsor]
  · cases has : env.accountAddressFrom wa with
    | error e =>
      simp [submitCounterTransactionNative, buildSignAndSponsorTransaction, hwa, has, countSponsor]
    | ok sender =>
      cases hb : env.build (nativeBuildRequest ca now action amount sender) with
      | error e =>
        simp [submitCounterTransactionNative, buildSignAndSponsorTransaction, hwa, has, hb,
          countSponsor]
      | ok simpleTx =>
        cases hsg : env.signTransaction simpleTx with
        | error e =>
          simp [submitCounterTransactionNative, buildSignAndSponsorTransaction, hwa, has, hb,
            hsg, countSponsor]
        | ok au =>
          cases hf : env.sponsorFetch (env.serializeTxn simpleTx) (env.serializeWalletAuth au) with
          | error e =>
            simp [submitCounterTransactionNative, buildSignAndSponsorTransaction, hwa, has, hb,
              hsg, hf, countSponsor]
          | ok resp =>
            cases hok : resp.ok with
            | false =>
              simp [submitCounterTransactionNative, buildSignAndSponsorTransaction, hwa, has, hb,
                hsg, hf, hok, countSponsor]
            | true =>
              by_cases hth : resp.transactionHash = ""
              · simp [submitCounterTransactionNative, buildSignAndSponsorTransaction, hwa, has,
                  hb, hsg, hf, hok, hth, countSponsor]
              · cases hw : env.waitForTransaction resp.transactionHash with
                | error e =>
                  simp [submitCounterTransactionNative, buildSignAndSponsorTransaction, hwa, has,
                    hb, hsg, hf, hok, hth, hw, countSponsor]
                | ok executed =>
                  cases hsc : executed.success with
                  | false =>
                    simp [submitCounterTransactionNative, buildSignAndSponsorTransaction, hwa,
                      has, hb, hsg, hf, hok, hth, hw, hsc, countSponsor]
                  | true =>
                    simp [submitCounterTransactionNative, buildSignAndSponsorTransaction, hwa,
                      has, hb, hsg, hf, hok, hth, hw, hsc, countSponsor]

/-- C1: Both submission flows return a transaction hash only when the chain
client's confirmation wait reported the executed transaction for that hash
with `success = true`; a `success = false` confirmation makes the call throw
instead of returning the hash. -/
theorem hash_returned_only_after_confirmed_success
    (env : Env) (ca : String) (now : Nat) (action : CounterAction) (amount : Int)
    (wa : String) (pk : List Char) (h : String) :
    ((submitCounterTransaction env ca action amount wa pk).1 = .ok h →
      ∃ ex, env.waitForTransaction h = .ok ex ∧ ex.success = true)
    ∧ ((submitCounterTransactionNative env ca now action amount wa).1 = .ok h →
      ∃ ex, env.waitForTransaction h = .ok ex ∧ ex.success = true) := by
  constructor
  · intro hres
    cases hb : env.build (custodialBuildRequest ca action amount wa) with
    | error e => simp [submitCounterTransaction, hb] at hres
    | ok rawTxn =>
      cases hs : env.signRawHash (custodialSignParams env wa rawTxn) with
      | error e => simp [submitCounterTransaction, hb, hs] at hres
      | ok sig =>
        cases hf : env.sponsorFetch (env.serializeTxn rawTxn)
            (env.serializeAuth { publicKey := cleanPublicKey pk, signature := strip0x sig.data }) with
        | error e => simp [submitCounterTransaction, hb, hs, hf] at hres
        | ok resp =>
          cases hok : resp.ok with
          | false => simp [submitCounterTransaction, hb, hs, hf, hok] at hres
          | true =>
            cases hw : env.waitForTransaction resp.transactionHash with
            | error e => simp [submitCounterTransaction, hb, hs, hf, hok, hw] at hres
            | ok executed =>
              cases hsc : executed.success with
              | false => simp [submitCounterTransaction, hb, hs, hf, hok, hw, hsc] at hres
              | true =>
                simp [submitCounterTransaction, hb, hs, hf, hok, hw, hsc] at hres
                exact ⟨executed, hres ▸ hw, hsc⟩
  · intro hres
    by_cases hwa : wa = ""
    · simp [submitCounterTransactionNative, hwa] at hres
    · cases hr : (buildSignAndSponsorTransaction env ca now action amount wa).1 with
      | error e => simp [submitCounterTransactionNative, hwa, hr] at hres
      | ok th =>
        by_cases hth : th = ""
        · simp [submitCounterTransactionNative, hwa, hr, hth] at hres
        · cases hw : env.waitForTransaction th with
          | error e => simp [submitCounterTransactionNative, hwa, hr, hth, hw] at hres
          | ok executed =>
            cases hsc : executed.success with
            | false => simp [submitCounterTransactionNative, hwa, hr, hth, hw, hsc] at hres
            | true =>
              simp [submitCounterTransactionNative, hwa, hr, hth, hw, hsc] at hres
              exact ⟨executed, hres ▸ hw, hsc⟩

/-- C1 witness: in the all-success environment both flows return the sponsored
hash, and the theorem yields the confirmed `success = true` record for it. -/
theorem hash_returned_only_after_confirmed_success_witness :
    (submitCounterTransaction okEnv "0xc" CounterAction.increment 5 "0xa" ['a']).1
        = .ok "0xdeadbeef"
    ∧ ∃ ex, okEnv.waitForTransaction "0xdeadbeef" = .ok ex ∧ ex.success = true :=
  ⟨rfl,
    (hash_returned_only_after_confirmed_success okEnv "0xc" 0 CounterAction.increment 5
      "0xa" ['a'] "0xdeadbeef").1 rfl⟩

/-- C2: the action-to-entry-point mapping is exactly
`increment → <addr>::counter::add_counter`,
`decrement → <addr>::counter::subtract_counter`, and both flows' build
requests pass `[amount]` as the sole function-argument list. -/
theorem counter_function_mapping_and_single_argument
    (ca sender wa : String) (now : Nat) (action : CounterAction) (amount : Int) :
    getCounterFunction ca CounterAction.increment = ca ++ "::counter::add_counter"
    ∧ getCounterFunction ca CounterAction.decrement = ca ++ "::counter::subtract_counter"
    ∧ (custodialBuildRequest ca action amount wa).functionArguments = [amount]
    ∧ (nativeBuildRequest ca now action amount sender).functionArguments = [amount] :=
  ⟨rfl, rfl, rfl, rfl⟩

/-- C5: `fetchCounterValue` resolves to the numeric value on a successful view
call and to `null` (`none`) when the view call throws; it never rejects, its
Lean type being `Option Int` rather than `Except`. -/
theorem fetchCounterValue_error_handling (env : Env) (ca addr : String) :
    (∀ e, env.view (ca ++ "::counter::get_counter") [addr] = .error e →
      fetchCounterValue env ca addr = none)
    ∧ (∀ v, env.view (ca ++ "::counter::get_counter") [addr] = .ok v →
      fetchCounterValue env ca addr = some (Int.ofNat v)) := by
  constructor <;> intro x hx <;> simp [fetchCounterValue, hx]

/-- C5 witness: with a rejecting view call the reader returns `none`. -/
theorem fetchCounterValue_error_handling_witness :
    fetchCounterValue viewErrEnv "0xc" "0xa" = none :=
  (fetchCounterValue_error_handling viewErrEnv "0xc" "0xa").1 "network down" rfl

/-- C6 counterexample: the custodial flow's build request carries no
expiration option at all (`expireTimestamp = none`), so the claim that either
flow's built transaction has a `now + 5 minutes` expiration is false for the
custodial flow at this concrete input. -/
theorem custodial_no_expiration_counterexample :
    (custodialBuildRequest "0xc" CounterAction.increment 5 "0xa").expireTimestamp = none
    ∧ (custodialBuildRequest "0xc" CounterAction.increment 5 "0xa").expireTimestamp
        ≠ some 300 := by
  constructor
  · rfl
  · simp [custodialBuildRequest]

/-- C6 amended: both flows build with the fee-payer flag set; the native flow
sets `expireTimestamp = floor(now_ms / 1000) + 5 * 60`, strictly greater than
the build time in seconds, while the custodial flow passes no expiration
option (the chain client's default applies). -/
theorem build_request_flags_amended
    (ca sender wa : String) (now : Nat) (action : CounterAction) (amount : Int) :
    (custodialBuildRequest ca action amount wa).withFeePayer = true
    ∧ (custodialBuildRequest ca action amount wa).expireTimestamp = none
    ∧ (nativeBuildRequest ca now action amount sender).withFeePayer = true
    ∧ (nativeBuildRequest ca now action amount sender).expireTimestamp
        = some (now / 1000 + 5 * 60)
    ∧ now / 1000 < now / 1000 + 5 * 60 :=
  ⟨rfl, rfl, rfl, rfl, by omega⟩

/-- C9: the native flow rejects an empty wallet address with
`No wallet address provided` before performing any external effect, while
the custodial flow performs no such check: its first effect is the build call
with the empty sender. -/
theorem native_empty_wallet_check
    (env : Env) (ca : String) (now : Nat) (action : CounterAction)
    (amount : Int) (pk : List Char) :
    (submitCounterTransactionNative env ca now action amount "").1
        = .error "No wallet address provided"
    ∧ (submitCounterTransactionNative env ca now action amount "").2 = []
    ∧ (submitCounterTransaction env ca action amount "" pk).2.head?
        = some (Eff.buildE (custodialBuildRequest ca action amount "")) := by
  refine ⟨by simp [submitCounterTransactionNative], by simp [submitCounterTransactionNative], ?_⟩
  cases hb : env.build (custodialBuildRequest ca action amount "") with
  | error e => simp [submitCounterTransaction, hb]
  | ok rawTxn =>
    cases hs : env.signRawHash (custodialSignParams env "" rawTxn) with
    | error e => simp [submitCounterTransaction, hb, hs]
    | ok sig =>
      cases hf : env.sponsorFetch (env.serializeTxn rawTxn)
          (env.serializeAuth { publicKey := cleanPublicKey pk, signature := strip0x sig.data }) with
      | error e => simp [submitCounterTransaction, hb, hs, hf]
      | ok resp =>
        cases hok : resp.ok with
        | false => simp [submitCounterTransaction, hb, hs, hf, hok]
        | true =>
          cases hw : env.waitForTransaction resp.transactionHash with
          | error e => simp [submitCounterTransaction, hb, hs, hf, hok, hw]
          | ok executed =>
            cases hsc : executed.success with
            | false => simp [submitCounterTransaction, hb, hs, hf, hok, hw, hsc]
            | true => simp [submitCounterTransaction, hb, hs, hf, hok, hw, hsc]

/-- C3 counterexample: with a non-2xx response whose body has `details`
present but equal to `""`, JavaScript `error.details || fallback` takes the
fallback, so the surfaced message is the generic one, not the backend-provided
(empty) `details` value, refuting the claim as stated. -/
theorem sponsor_empty_details_counterexample :
    emptyDetailsEnv.sponsorFetch "T" "A" = Except.ok ⟨false, some "", ""⟩
    ∧ (submitCounterTransaction emptyDetailsEnv "0xc" CounterAction.increment 1 "0xa" ['a']).1
        = .error "Failed to sponsor transaction"
    ∧ (submitCounterTransactionNative emptyDetailsEnv "0xc" 0 CounterAction.increment 1 "0xa").1
        = .error "Failed to sponsor transaction"
    ∧ "Failed to sponsor transaction" ≠ ("" : String) :=
  ⟨rfl, rfl, rfl, by decide⟩

/-- C3 amended: on a non-2xx sponsorship response both flows fail with a
message equal to the `details` field when it is present AND non-empty, and
equal to the generic `Failed to sponsor transaction` when it is absent or
empty; the message is never empty. -/
theorem sponsor_error_message_amended
    (env : Env) (ca : String) (now : Nat) (action : CounterAction) (amount : Int)
    (wa : String) (pk : List Char) (resp : SponsorResp)
    (hb : ∀ r, ∃ t, env.build r = Except.ok t)
    (hs : ∀ p, ∃ s, env.signRawHash p = Except.ok s)
    (ha : ∃ s, env.accountAddressFrom wa = Except.ok s)
    (ht : ∀ t, ∃ a, env.signTransaction t = Except.ok a)
    (hwa : wa ≠ "")
    (hf : ∀ a b, env.sponsorFetch a b = Except.ok resp)
    (hok : resp.ok = false) :
    ∃ m, (submitCounterTransaction env ca action amount wa pk).1 = .error m
      ∧ (submitCounterTransactionNative env ca now action amount wa).1 = .error m
      ∧ (∀ d, resp.details = some d → d ≠ "" → m = d)
      ∧ ((resp.details = none ∨ resp.details = some "") →
          m = "Failed to sponsor transaction")
      ∧ m ≠ "" := by
  refine ⟨jsOr resp.details "Failed to sponsor transaction", ?_, ?_, ?_, ?_, ?_⟩
  · obtain ⟨t, hbt⟩ := hb (custodialBuildRequest ca action amount wa)
    obtain ⟨sig, hss⟩ := hs (custodialSignParams env wa t)
    simp [submitCounterTransaction, hbt, hss, hf, hok]
  · obtain ⟨sender, has⟩ := ha
    obtain ⟨t, hbt⟩ := hb (nativeBuildRequest ca now action amount sender)
    obtain ⟨au, hta⟩ := ht t
    simp [submitCounterTransactionNative, buildSignAndSponsorTransaction,
      hwa, has, hbt, hta, hf, hok]
  · intro d hd hne
    simp [jsOr, hd, hne]
  · intro hd
    rcases hd with hd | hd <;> simp [jsOr, hd]
  · cases hdet : resp.details with
    | none => simp [jsOr]
    | some d =>
      by_cases hde : d = "" <;> simp [jsOr, hde]

/-- C3 witness: a backend rejection carrying `details = "insufficient
balance"` surfaces exactly that message in both flows. -/
theorem sponsor_error_message_amended_witness :
    ∃ m, (submitCounterTransaction detailsEnv "0xc" CounterAction.increment 1 "0xa" ['a']).1
        = .error m
      ∧ (submitCounterTransactionNative detailsEnv "0xc" 0 CounterAction.increment 1 "0xa").1
        = .error m
      ∧ (∀ d, (⟨false, some "insufficient balance", ""⟩ : SponsorResp).details = some d →
          d ≠ "" → m = d)
      ∧ (((⟨false, some "insufficient balance", ""⟩ : SponsorResp).details = none ∨
          (⟨false, some "insufficient balance", ""⟩ : SponsorResp).details = some "") →
          m = "Failed to sponsor transaction")
      ∧ m ≠ "" :=
  sponsor_error_message_amended detailsEnv "0xc" 0 CounterAction.increment 1 "0xa" ['a']
    ⟨false, some "insufficient balance", ""⟩
    (fun _ => ⟨0, rfl⟩) (fun _ => ⟨"0xs", rfl⟩) ⟨"0xa", rfl⟩ (fun _ => ⟨7, rfl⟩)
    (by decide) (fun _ _ => rfl) rfl

/-- C4: the custodial hex normalization: stripping `0x` from an unprefixed
string is a no-op; on strings whose payload is hex digits (a public key; the letter `x`
is not a hex digit) stripping twice equals stripping once; a 66-hex-character
(33-byte) key is reduced to 64 characters (32 bytes) by dropping the leading
byte; and every authenticator the custodial flow constructs carries exactly
`cleanPublicKey publicKeyHex` as its public key. -/
theorem cleanPublicKey_normalization (s : List Char) :
    (startsWith0x s = false → strip0x s = s)
    ∧ ((∀ c ∈ strip0x s, isHexChar c = true) →
        strip0x (strip0x s) = strip0x s)
    ∧ ((strip0x s).length = 66 →
        cleanPublicKey s = (strip0x s).drop 2 ∧ (cleanPublicKey s).length = 64)
    ∧ (∀ (env : Env) (ca : String) (action : CounterAction) (amount : Int)
        (wa : String) (a : Ed25519Auth),
        Eff.mkAuthE a ∈ (submitCounterTransaction env ca action amount wa s).2 →
        a.publicKey = cleanPublicKey s) := by
  refine ⟨?_, ?_, ?_, ?_⟩
  · intro h
    simp [strip0x, h]
  · intro hhex
    have ht := startsWith0x_false_of_hexChars (strip0x s) hhex
    generalize hgen : strip0x s = t at ht ⊢
    simp [strip0x, ht]
  · intro hlen
    refine ⟨by simp [cleanPublicKey, hlen], ?_⟩
    simp [cleanPublicKey, hlen, List.length_drop]
  · intro env ca action amount wa a hmem
    cases hb : env.build (custodialBuildRequest ca action amount wa) with
    | error e => simp [submitCounterTransaction, hb] at hmem
    | ok rawTxn =>
      cases hs : env.signRawHash (custodialSignParams env wa rawTxn) with
      | error e => simp [submitCounterTransaction, hb, hs] at hmem
      | ok sig =>
        cases hf : env.sponsorFetch (env.serializeTxn rawTxn)
            (env.serializeAuth { publicKey := cleanPublicKey s, signature := strip0x sig.data }) with
        | error e =>
          simp [submitCounterTransaction, hb, hs, hf] at hmem
          simp [hmem]
        | ok resp =>
          cases hok : resp.ok with
          | false =>
            simp [submitCounterTransaction, hb, hs, hf, hok] at hmem
            simp [hmem]
          | true =>
            cases hw : env.waitForTransaction resp.transactionHash with
            | error e =>
              simp [submitCounterTransaction, hb, hs, hf, hok, hw] at hmem
              simp [hmem]
            | ok executed =>
              cases hsc : executed.success with
              | false =>
                simp [submitCounterTransaction, hb, hs, hf, hok, hw, hsc] at hmem
                simp [hmem]
              | true =>
                simp [submitCounterTransaction, hb, hs, hf, hok, hw, hsc] at hmem
                simp [hmem]

/-- C4 witness: an unprefixed 66-character hex key is left unchanged by the
prefix strip, a second strip is a no-op, the cleaned key has 64 characters,
and the authenticator built by the custodial flow in the all-success
environment carries exactly the cleaned key. -/
theorem cleanPublicKey_normalization_witness :
    strip0x (List.replicate 66 'a') = List.replicate 66 'a'
    ∧ strip0x (strip0x (List.replicate 66 'a')) = strip0x (List.replicate 66 'a')
    ∧ (cleanPublicKey (List.replicate 66 'a')).length = 64
    ∧ (⟨cleanPublicKey (List.replicate 66 'a'), ['s']⟩ : Ed25519Auth).publicKey
        = cleanPublicKey (List.replicate 66 'a') :=
  ⟨(cleanPublicKey_normalization (List.replicate 66 'a')).1 (by decide),
   (cleanPublicKey_normalization (List.replicate 66 'a')).2.1 (by decide),
   ((cleanPublicKey_normalization (List.replicate 66 'a')).2.2.1 (by decide)).2,
   (cleanPublicKey_normalization (List.replicate 66 'a')).2.2.2 okEnv "0xc"
     CounterAction.increment 5 "0xa" _ (by decide)⟩

/-- C7: a submission call never issues more than one POST to the sponsorship
endpoint, and a call that reaches the sponsorship stage (build and signing
succeed) issues exactly one, whatever the response — no retry happens after a
failed attempt. -/
theorem single_sponsor_post_no_retry
    (env : Env) (ca : String) (now : Nat) (action : CounterAction) (amount : Int)
    (wa : String) (pk : List Char)
    (hb : ∀ r, ∃ t, env.build r = Except.ok t)
    (hs : ∀ p, ∃ s, env.signRawHash p = Except.ok s)
    (ha : ∃ s, env.accountAddressFrom wa = Except.ok s)
    (ht : ∀ t, ∃ a, env.signTransaction t = Except.ok a)
    (hwa : wa ≠ "") :
    countSponsor (submitCounterTransaction env ca action amount wa pk).2 = 1
    ∧ countSponsor (submitCounterTransactionNative env ca now action amount wa).2 = 1
    ∧ (∀ (env2 : Env) (ca2 : String) (now2 : Nat) (action2 : CounterAction)
        (amount2 : Int) (wa2 : String) (pk2 : List Char),
        countSponsor (submitCounterTransaction env2 ca2 action2 amount2 wa2 pk2).2 ≤ 1
        ∧ countSponsor (submitCounterTransactionNative env2 ca2 now2 action2 amount2 wa2).2 ≤ 1) := by
  obtain ⟨sender, has⟩ := ha
  refine ⟨?_, ?_, ?_⟩
  · obtain ⟨rawTxn, hbt⟩ := hb (custodialBuildRequest ca action amount wa)
    obtain ⟨sig, hss⟩ := hs (custodialSignParams env wa rawTxn)
    cases hf : env.sponsorFetch (env.serializeTxn rawTxn)
        (env.serializeAuth { publicKey := cleanPublicKey pk, signature := strip0x sig.data }) with
    | error e => simp [submitCounterTransaction, hbt, hss, hf, countSponsor]
    | ok resp =>
      cases hok : resp.ok with
      | false => simp [submitCounterTransaction, hbt, hss, hf, hok, countSponsor]
      | true =>
        cases hw : env.waitForTransaction resp.transactionHash with
        | error e => simp [submitCounterTransaction, hbt, hss, hf, hok, hw, countSponsor]
        | ok executed =>
          cases hsc : executed.success with
          | false => simp [submitCounterTransaction, hbt, hss, hf, hok, hw, hsc, countSponsor]
          | true => simp [submitCounterTransaction, hbt, hss, hf, hok, hw, hsc, countSponsor]
  · obtain ⟨simpleTx, hbt⟩ := hb (nativeBuildRequest ca now action amount sender)
    obtain ⟨au, hta⟩ := ht simpleTx
    cases hf : env.sponsorFetch (env.serializeTxn simpleTx) (env.serializeWalletAuth au) with
    | error e =>
      simp [submitCounterTransactionNative, buildSignAndSponsorTransaction, hwa, has, hbt,
        hta, hf, countSponsor]
    | ok resp =>
      cases hok : resp.ok with
      | false =>
        simp [submitCounterTransactionNative, buildSignAndSponsorTransaction, hwa, has, hbt,
          hta, hf, hok, countSponsor]
      | true =>
        by_cases hth : resp.transactionHash = ""
        · simp [submitCounterTransactionNative, buildSignAndSponsorTransaction, hwa, has, hbt,
            hta, hf, hok, hth, countSponsor]
        · cases hw : env.waitForTransaction resp.transactionHash with
          | error e =>
            simp [submitCounterTransactionNative, buildSignAndSponsorTransaction, hwa, has,
              hbt, hta, hf, hok, hth, hw, countSponsor]
          | ok executed =>
            cases hsc : executed.success with
            | false =>
              simp [submitCounterTransactionNative, buildSignAndSponsorTransaction, hwa, has,
                hbt, hta, hf, hok, hth, hw, hsc, countSponsor]
            | true =>
              simp [submitCounterTransactionNative, buildSignAndSponsorTransaction, hwa, has,
                hbt, hta, hf, hok, hth, hw, hsc, countSponsor]
  · intro env2 ca2 now2 action2 amount2 wa2 pk2
    exact ⟨countSponsor_custodial_le env2 ca2 action2 amount2 wa2 pk2,
      countSponsor_native_le env2 ca2 now2 action2 amount2 wa2⟩

/-- C7 witness: in the all-success environment each flow performs exactly one
sponsorship POST. -/
theorem single_sponsor_post_no_retry_witness :
    countSponsor (submitCounterTransaction okEnv "0xc" CounterAction.increment 5 "0xa" ['a']).2 = 1
    ∧ countSponsor (submitCounterTransactionNative okEnv "0xc" 0 CounterAction.increment 5 "0xa").2 = 1 :=
  ⟨(single_sponsor_post_no_retry okEnv "0xc" 0 CounterAction.increment 5 "0xa" ['a']
      (fun _ => ⟨0, rfl⟩) (fun _ => ⟨"0xs", rfl⟩) ⟨"0xa", rfl⟩ (fun _ => ⟨7, rfl⟩)
      (by decide)).1,
   (single_sponsor_post_no_retry okEnv "0xc" 0 CounterAction.increment 5 "0xa" ['a']
      (fun _ => ⟨0, rfl⟩) (fun _ => ⟨"0xs", rfl⟩) ⟨"0xa", rfl⟩ (fun _ => ⟨7, rfl⟩)
      (by decide)).2.1⟩

/-- C8: when the custodial flow reaches the external signer, the request it
sends is exactly `{ address = walletAddress, chainType = aptos, hash = "0x"
++ hex(signing message of the built transaction) }` — and it sends no other
signer request — and the authenticator it then constructs pairs the
normalized public key with the returned signature stripped of any `0x`
prefix. -/
theorem custodial_signer_message_and_authenticator
    (env : Env) (ca : String) (action : CounterAction) (amount : Int)
    (wa : String) (pk : List Char) (rawTxn : Nat) (sig : String)
    (hb : env.build (custodialBuildRequest ca action amount wa) = Except.ok rawTxn)
    (hs : env.signRawHash (custodialSignParams env wa rawTxn) = Except.ok sig) :
    Eff.signRawE { address := wa
                   chainType := "aptos"
                   hash := "0x" ++ toHex (env.generateSigningMessage rawTxn) }
      ∈ (submitCounterTransaction env ca action amount wa pk).2
    ∧ Eff.mkAuthE { publicKey := cleanPublicKey pk, signature := strip0x sig.data }
      ∈ (submitCounterTransaction env ca action amount wa pk).2
    ∧ (∀ p, Eff.signRawE p ∈ (submitCounterTransaction env ca action amount wa pk).2 →
        p = { address := wa
              chainType := "aptos"
              hash := "0x" ++ toHex (env.generateSigningMessage rawTxn) }) := by
  have hs2 : env.signRawHash
      { address := wa
        chainType := "aptos"
        hash := "0x" ++ toHex (env.generateSigningMessage rawTxn) } = Except.ok sig := hs
  cases hf : env.sponsorFetch (env.serializeTxn rawTxn)
      (env.serializeAuth { publicKey := cleanPublicKey pk, signature := strip0x sig.data }) with
  | error e =>
    refine ⟨?_, ?_, ?_⟩
    · simp [submitCounterTransaction, custodialSignParams, hb, hs, hs2, hf]
    · simp [submitCounterTransaction, custodialSignParams, hb, hs, hs2, hf]
    · intro p hp
      simp [submitCounterTransaction, custodialSignParams, hb, hs, hs2, hf] at hp
      simp [hp]
  | ok resp =>
    cases hok : resp.ok with
    | false =>
      refine ⟨?_, ?_, ?_⟩
      · simp [submitCounterTransaction, custodialSignParams, hb, hs, hs2, hf, hok]
      · simp [submitCounterTransaction, custodialSignParams, hb, hs, hs2, hf, hok]
      · intro p hp
        simp [submitCounterTransaction, custodialSignParams, hb, hs, hs2, hf, hok] at hp
        simp [hp]
    | true =>
      cases hw : env.waitForTransaction resp.transactionHash with
      | error e =>
        refine ⟨?_, ?_, ?_⟩
        · simp [submitCounterTransaction, custodialSignParams, hb, hs, hs2, hf, hok, hw]
        · simp [submitCounterTransaction, custodialSignParams, hb, hs, hs2, hf, hok, hw]
        · intro p hp
          simp [submitCounterTransaction, custodialSignParams, hb, hs, hs2, hf, hok, hw] at hp
          simp [hp]
      | ok executed =>
        cases hsc : executed.success with
        | false =>
          refine ⟨?_, ?_, ?_⟩
          · simp [submitCounterTransaction, custodialSignParams, hb, hs, hs2, hf, hok, hw, hsc]
          · simp [submitCounterTransaction, custodialSignParams, hb, hs, hs2, hf, hok, hw, hsc]
          · intro p hp
            simp [submitCounterTransaction, custodialSignParams, hb, hs, hs2, hf, hok, hw, hsc] at hp
            simp [hp]
        | true =>
          refine ⟨?_, ?_, ?_⟩
          · simp [submitCounterTransaction, custodialSignParams, hb, hs, hs2, hf, hok, hw, hsc]
          · simp [submitCounterTransaction, custodialSignParams, hb, hs, hs2, hf, hok, hw, hsc]
          · intro p hp
            simp [submitCounterTransaction, custodialSignParams, hb, hs, hs2, hf, hok, hw, hsc] at hp
            simp [hp]

/-- C8 witness: in the all-success environment the signer request and the
constructed authenticator are the ones the theorem describes. -/
theorem custodial_signer_message_and_authenticator_witness :
    Eff.signRawE { address := "0xa"
                   chainType := "aptos"
                   hash := "0x" ++ toHex (okEnv.generateSigningMessage 0) }
      ∈ (submitCounterTransaction okEnv "0xc" CounterAction.increment 5 "0xa" ['a']).2
    ∧ Eff.mkAuthE { publicKey := cleanPublicKey ['a'], signature := strip0x "0xs".data }
      ∈ (submitCounterTransaction okEnv "0xc" CounterAction.increment 5 "0xa" ['a']).2 :=
  ⟨(custodial_signer_message_and_authenticator okEnv "0xc" CounterAction.increment 5
      "0xa" ['a'] 0 "0xs" rfl rfl).1,
   (custodial_signer_message_and_authenticator okEnv "0xc" CounterAction.increment 5
      "0xa" ['a'] 0 "0xs" rfl rfl).2.1⟩

/-- C10: if the sponsorship backend answers 2xx but with a missing/falsy
transaction hash, the native flow rejects with
`Unable to get transaction hash from backend` and never calls
`waitForTransaction`. -/
theorem native_missing_hash_rejects
    (env : Env) (ca : String) (now : Nat) (action : CounterAction) (amount : Int)
    (wa : String) (resp : SponsorResp)
    (hwa : wa ≠ "")
    (ha : ∃ s, env.accountAddressFrom wa = Except.ok s)
    (hb : ∀ r, ∃ t, env.build r = Except.ok t)
    (ht : ∀ t, ∃ a, env.signTransaction t = Except.ok a)
    (hf : ∀ a b, env.sponsorFetch a b = Except.ok resp)
    (hok : resp.ok = true) (hh : resp.transactionHash = "") :
    (submitCounterTransactionNative env ca now action amount wa).1
        = .error "Unable to get transaction hash from backend"
    ∧ countWait (submitCounterTransactionNative env ca now action amount wa).2 = 0 := by
  obtain ⟨sender, has⟩ := ha
  obtain ⟨simpleTx, hbt⟩ := hb (nativeBuildRequest ca now action amount sender)
  obtain ⟨au, hta⟩ := ht simpleTx
  constructor
  · simp [submitCounterTransactionNative, buildSignAndSponsorTransaction, hwa, has, hbt,
      hta, hf, hok, hh]
  · simp [submitCounterTransactionNative, buildSignAndSponsorTransaction, hwa, has, hbt,
      hta, hf, hok, hh, countWait]

/-- C10 witness: a concrete 2xx response with an empty hash makes the native
flow fail with that message and perform no confirmation wait. -/
theorem native_missing_hash_rejects_witness :
    (submitCounterTransactionNative noHashEnv "0xc" 0 CounterAction.increment 5 "0xa").1
        = .error "Unable to get transaction hash from backend"
    ∧ countWait (submitCounterTransactionNative noHashEnv "0xc" 0 CounterAction.increment 5 "0xa").2 = 0 :=
  native_missing_hash_rejects noHashEnv "0xc" 0 CounterAction.increment 5 "0xa"
    ⟨true, none, ""⟩ (by decide) ⟨"0xa", rfl⟩ (fun _ => ⟨0, rfl⟩) (fun _ => ⟨7, rfl⟩)
    (fun _ _ => rfl) rfl rfl
